import Mathlib

/-!
Shallow embedding of the Hortilite_Python soil-sensor stack, covering the
response codec (`src/readBytes.py`), the Modbus CRC-16 and request framing
(`src/read_SoilSensor.py`), and the serial transport (`src/SerialDevice.py`).

Python values are modelled as follows: the hex strings produced by
`bytes.hex()` become lists of hex-digit values (each entry the value 0..15 of
one hex character); byte sequences become lists of naturals; Python numbers
produced by the decoder (int divided by the catalog scale) become rationals;
a Python call that may return a value, return `None`, or raise an exception
becomes a `PyOutcome`.
-/

set_option maxRecDepth 10000

/-- Outcome of a Python call: a returned value, a returned `None`, or a
raised exception (identified by its class name). -/
inductive PyOutcome (α : Type) where
  | ok (val : α)
  | retNone
  | exn (clsName : String)
deriving DecidableEq, Repr

/-- Sequencing of Python statements: a raised exception propagates. The
`retNone` case also propagates; it is never produced by the expressions this
is applied to (they either return a value or raise). -/
def bindO {α β : Type} (x : PyOutcome α) (f : α → PyOutcome β) : PyOutcome β :=
  match x with
  | .ok a => f a
  | .retNone => .retNone
  | .exn e => .exn e

/-- Hex digits (low digit last) of one byte, as produced for that byte by
Python `bytes.hex()`. -/
def byteToHex (b : Nat) : List Nat := [b / 16 % 16, b % 16]

/-- Hex-digit list of a byte sequence, modelling Python `bytes.hex()`. -/
def bytesToHex (bs : List Nat) : List Nat := bs.flatMap byteToHex

/-- Value of a hex-digit string, modelling Python `int(s, 16)` on a string
of valid hex digits. -/
def hexVal (s : List Nat) : Nat := s.foldl (fun a d => a * 16 + d) 0

/-- Embedding of `readBytes.hex_to_signed` (src/readBytes.py lines 6-13):
`int(value, 16)` followed by the 16-bit two of-complement adjustment
(subtract 0x10000 when the value is at least 0x8000). `int` raises
`ValueError` on an empty string or a character that is not a hex digit. -/
def hex_to_signed (s : List Nat) : PyOutcome Int :=
  if s = [] ∨ s.any (fun d => 16 ≤ d) then .exn "ValueError"
  else
    let v := hexVal s
    if 0x8000 ≤ v then .ok ((v : Int) - 0x10000) else .ok (v : Int)

/-- Decimal reading of a digit string, modelling Python `int(s)` as applied
to `eff_bytes` in `read_value` (src/readBytes.py line 32): the two hex
characters of byte 2 are parsed as a DECIMAL number; a character outside
0-9 (a hex digit a-f) or an empty string raises `ValueError`. -/
def int_dec (s : List Nat) : PyOutcome Nat :=
  if s = [] ∨ s.any (fun d => 10 ≤ d) then .exn "ValueError"
  else .ok (s.foldl (fun a d => a * 10 + d) 0)

/-- Division of a decoded field by the catalog scale, modelling Python
true division; dividing by zero raises `ZeroDivisionError`. -/
def pyDiv (a : Int) (r : ℚ) : PyOutcome ℚ :=
  if r = 0 then .exn "ZeroDivisionError" else .ok ((a : ℚ) / r)

/-- Embedding of the list comprehension
`[data[i:i+4] for i in range(0, len(data), 4)]` used in the branches for
keys 1 and 5 of `read_value`: the string is cut into chunks of four hex
characters, the last chunk possibly shorter. -/
def chunks4 : List Nat → List (List Nat)
  | [] => []
  | [a] => [[a]]
  | [a, b] => [[a, b]]
  | [a, b, c] => [[a, b, c]]
  | a :: b :: c :: d :: rest => [a, b, c, d] :: chunks4 rest

/-- One entry of the instruction catalog, per the shape of
`SoilSensorInstructions.json` described in spec section 6: a request byte
template, a scale divisor and a description. -/
structure InstructionSpec where
  bytes : List Nat
  convert_rate : ℚ
  description : String
deriving DecidableEq, Repr

/-- The instruction catalog: the module-level `instructions` mapping of
`readBytes.py`, modelled as a parameter because it is loaded from a JSON
resource at import time. -/
abbrev Catalog : Type := String → Option InstructionSpec

/-- A decoded reading: the Python dict returned by `read_value`, with its
insertion order. -/
abbrev Reading : Type := List (String × ℚ)

/-- Modelled from the spec: `SoilSensorInstructions.json` is not among the
sources, so a concrete catalog is reconstructed from spec sections 3, 6 and
8 — keys "1".."8", each mapping to a byte template, a `convert_rate` and a
description; the scenario in spec section 8 fixes `convert_rate = 10` (the
decoder reads nothing else from an entry). -/
def testCatalog : Catalog := fun key =>
  if key = "1" then some ⟨[0x00, 0x00, 0x00, 0x02], 10, "temperature and humidity"⟩
  else if key = "2" then some ⟨[0x00, 0x12, 0x00, 0x01], 10, "soil moisture"⟩
  else if key = "3" then some ⟨[0x00, 0x15, 0x00, 0x01], 10, "conductivity"⟩
  else if key = "4" then some ⟨[0x00, 0x06, 0x00, 0x01], 10, "pH"⟩
  else if key = "5" then some ⟨[0x00, 0x1E, 0x00, 0x03], 10, "NPK"⟩
  else if key = "6" then some ⟨[0x00, 0x1E, 0x00, 0x01], 10, "nitrogen"⟩
  else if key = "7" then some ⟨[0x00, 0x1F, 0x00, 0x01], 10, "phosphorus"⟩
  else if key = "8" then some ⟨[0x00, 0x20, 0x00, 0x01], 10, "potassium"⟩
  else none

/-- Embedding of `readBytes.get_dev_id` (src/readBytes.py lines 23-25):
`result[0:2]`, the first two hex characters, i.e. byte 0 of the response. -/
def get_dev_id (result : List Nat) : List Nat := result.take 2

/-- Body of `readBytes.read_value` after the reassignment
`result = result[:-4]` (src/readBytes.py lines 31-65), acting on the
CRC-stripped hex string `r`:
`eff_bytes = result[4:6]` parsed by decimal `int`, `data = result[6:6+n*2]`,
catalog lookup of `convert_rate` (a missing key raises `KeyError`), then the
per-key field split. Key 8 evaluates `k = hex_to_signed(data)/convert_rate`
but then executes `return ⟨"Potassium": n⟩` with `n` never assigned in that
path, raising `UnboundLocalError`; a key other than "1".."8" falls off the
end of the function and returns `None`. -/
def read_value_core (catalog : Catalog) (r : List Nat) (inst_type : String) :
    PyOutcome Reading :=
  let eff_bytes := (r.drop 4).take 2
  bindO (int_dec eff_bytes) fun n =>
  let data := (r.drop 6).take (n * 2)
  match catalog inst_type with
  | none => .exn "KeyError"
  | some sp =>
    let cr := sp.convert_rate
    if inst_type = "1" then
      match chunks4 data with
      | [t, h] =>
        bindO (hex_to_signed t) fun tv =>
        bindO (pyDiv tv cr) fun tq =>
        bindO (hex_to_signed h) fun hv =>
        bindO (pyDiv hv cr) fun hq =>
        .ok [("Temperature", tq), ("Humidity", hq)]
      | _ => .exn "ValueError"
    else if inst_type = "2" then
      bindO (hex_to_signed data) fun v => bindO (pyDiv v cr) fun q =>
      .ok [("Moisture", q)]
    else if inst_type = "3" then
      bindO (hex_to_signed data) fun v => bindO (pyDiv v cr) fun q =>
      .ok [("EC", q)]
    else if inst_type = "4" then
      bindO (hex_to_signed data) fun v => bindO (pyDiv v cr) fun q =>
      .ok [("pH", q)]
    else if inst_type = "5" then
      match chunks4 data with
      | [na, pa, ka] =>
        bindO (hex_to_signed na) fun nv =>
        bindO (pyDiv nv cr) fun nq =>
        bindO (hex_to_signed pa) fun pv =>
        bindO (pyDiv pv cr) fun pq =>
        bindO (hex_to_signed ka) fun kv =>
        bindO (pyDiv kv cr) fun kq =>
        .ok [("Nitrogen", nq), ("Phosphorus", pq), ("Potassium", kq)]
      | _ => .exn "ValueError"
    else if inst_type = "6" then
      bindO (hex_to_signed data) fun v => bindO (pyDiv v cr) fun q =>
      .ok [("Nitrogen", q)]
    else if inst_type = "7" then
      bindO (hex_to_signed data) fun v => bindO (pyDiv v cr) fun q =>
      .ok [("Phosphorus", q)]
    else if inst_type = "8" then
      bindO (hex_to_signed data) fun v => bindO (pyDiv v cr) fun _ =>
      .exn "UnboundLocalError"
    else .retNone

/-- Embedding of `readBytes.read_value` (src/readBytes.py lines 27-65): the
first statement `result = result[:-4]` strips the trailing four hex
characters (the two CRC bytes) and the rest of the function runs on the
stripped string. No CRC is ever recomputed or compared. -/
def read_value (catalog : Catalog) (result : List Nat) (inst_type : String) :
    PyOutcome Reading :=
  read_value_core catalog (result.take (result.length - 4)) inst_type

/-- One round of the inner loop of `modbus_crc_16`
(src/read_SoilSensor.py lines 32-37): if the low bit of `crc` is set, shift
right one and XOR with 0xA001, else shift right one. -/
def crcRound (crc : Nat) : Nat :=
  if crc &&& 1 ≠ 0 then (crc >>> 1) ^^^ 0xA001 else crc >>> 1

/-- Body of the outer loop of `modbus_crc_16` for one input byte: XOR the
byte into `crc`, then run eight rounds. -/
def crcByte (crc b : Nat) : Nat := crcRound^[8] (crc ^^^ b)

/-- The CRC accumulator of `modbus_crc_16`: seed 0xFFFF, then fold
`crcByte` over the input bytes. -/
def crcAccum (data : List Nat) : Nat := data.foldl crcByte 0xFFFF

/-- Embedding of `read_SoilSensor.modbus_crc_16`
(src/read_SoilSensor.py lines 14-41): after the accumulator loop, `little`
returns the pair (high byte, low byte), `big` returns (low byte, high
byte), and any other endian string falls off the end of the function and
returns `None`. -/
def modbus_crc_16 (data : List Nat) (endian : String) : Option (Nat × Nat) :=
  let crc := crcAccum data
  if endian = "little" then some (crc >>> 8, crc &&& 0xff)
  else if endian = "big" then some (crc &&& 0xff, crc >>> 8)
  else none

/-- The CRC round as spec section 4.1 words it, for comparison with the
source transcription `crcRound`: when the low bit (the parity of `crc`) is
one, halve and XOR with 0xA001, else just halve. -/
def crcRoundSpec (crc : Nat) : Nat :=
  if crc % 2 = 1 then (crc / 2) ^^^ 0xA001 else crc / 2

/-- The CRC accumulator as spec section 4.1 words it: seed 0xFFFF; for each
input byte, XOR into `crc` and repeat the round eight times. -/
def crcAccumSpec (data : List Nat) : Nat :=
  data.foldl (fun c b => crcRoundSpec^[8] (c ^^^ b)) 0xFFFF

/-- Embedding of the request framing of `read_SoilSensor`
(src/read_SoilSensor.py lines 53-59): `a = [i, 0x03] + instruction bytes`,
`crc = modbus_crc_16(trig_hex)` with the default endian `"big"`, and the
frame sent is `a + bytearray(crc)`. The catalog instruction bytes (the
register address and count) are a parameter because they come from the JSON
resource. -/
def trig_hex (address : Nat) (inst_bytes : List Nat) : Option (List Nat) :=
  let a := address :: 0x03 :: inst_bytes
  (modbus_crc_16 a "big").map (fun crc => a ++ [crc.1, crc.2])

/-- Behavior of the underlying pyserial port object for the operations the
transport model performs: whether `port.write` raises, whether `port.read`
raises, the bytes a successful `port.read` yields, whether `port.close`
raises, and the value of `port.in_waiting`. -/
structure PortModel where
  writeRaises : Bool
  readRaises : Bool
  readData : List Nat
  closeRaises : Bool
  inWaiting : Nat
deriving DecidableEq, Repr

/-- Result of one `serial.Serial(...)` constructor call: pyserial returns
an open port object or raises (a `SerialException` when the device cannot
be opened); the constructor never returns `None`. -/
inductive OpenResult where
  | opened (p : PortModel)
  | raises
deriving DecidableEq, Repr

/-- State of a `SerialDevice` instance together with the outside world:
`device` is `self._device`, `device_error` is `self._device_error`,
`auto_reconnect` is `self._auto_reconnect`; `openSeq` gives the outcome of
each successive `serial.Serial` constructor call and `openIdx` counts the
constructor calls already made. -/
structure SDState where
  device : Option PortModel
  device_error : Bool
  auto_reconnect : Bool
  openSeq : Nat → OpenResult
  openIdx : Nat

/-- Observable port operations, recorded in order: buffer resets, writes,
reads (with the requested size), closes and constructor calls. -/
inductive Ev where
  | resetIn
  | resetOut
  | portWrite (data : List Nat)
  | portRead (size : Nat)
  | portClose
  | portOpen
deriving DecidableEq, Repr

/-- Embedding of `SerialDevice.disconnect` (src/SerialDevice.py lines
145-159): `try: self._device.close()` — a close-time exception (including
the `AttributeError` of calling close on a `None` device) is caught and at
most logged — and the `finally` block always sets `self._device = None`.
The method returns `None` and never raises. -/
def disconnect (s : SDState) : PyOutcome Unit × SDState × List Ev :=
  match s.device with
  | none => (.retNone, { s with device := none }, [])
  | some _ => (.retNone, { s with device := none }, [Ev.portClose])

/-- One `serial.Serial(port=to_open, **prop)` constructor call as made by
`reconnect`: the next behavior from `openSeq`, either an open port or a
raised `SerialException`. -/
def openPort (s : SDState) : PyOutcome PortModel × SDState × List Ev :=
  match s.openSeq s.openIdx with
  | .opened p => (.ok p, { s with openIdx := s.openIdx + 1 }, [Ev.portOpen])
  | .raises => (.exn "SerialException", { s with openIdx := s.openIdx + 1 }, [Ev.portOpen])

/-- The retry loop of `SerialDevice.reconnect` (src/SerialDevice.py lines
404-414): `while (self._device is None) and j > 0`, each iteration closing
the port, reopening and decrementing `j`, and breaking as soon as the
device is not `None`. The last component counts the constructor calls made
inside the loop. Because the constructor either returns a port or raises,
an iteration that does not raise always breaks. -/
def reconnectLoop : Nat → SDState → PyOutcome Unit × SDState × List Ev × Nat
  | 0, s => (.ok (), s, [], 0)
  | Nat.succ j, s =>
    if s.device.isSome then (.ok (), s, [], 0)
    else
      let d := disconnect s
      match openPort d.2.1 with
      | (.ok p, s2, e2) => (.ok (), { s2 with device := some p }, d.2.2 ++ e2, 1)
      | (.exn e, s2, e2) => (.exn e, s2, d.2.2 ++ e2, 1)
      | (.retNone, s2, e2) =>
        let rest := reconnectLoop j s2
        (rest.1, rest.2.1, d.2.2 ++ e2 ++ rest.2.2.1, rest.2.2.2 + 1)

/-- Tail of `reconnect` after the first constructor call: the retry loop,
then `if self._device is None: return None` else clear
`self._device_error` and `return True`. Carries forward the events and
counts the first constructor call plus those of the loop. -/
def reconnectFinish (trials : Nat) (s : SDState) (ev : List Ev) :
    PyOutcome Bool × SDState × List Ev × Nat :=
  match reconnectLoop trials s with
  | (.exn e, s2, e2, k) => (.exn e, s2, ev ++ e2, 1 + k)
  | (_, s2, e2, k) =>
    match s2.device with
    | none => (.retNone, s2, ev ++ e2, 1 + k)
    | some _ => (.ok true, { s2 with device_error := false }, ev ++ e2, 1 + k)

/-- Embedding of `SerialDevice.reconnect` (src/SerialDevice.py lines
379-419). First `prop = {x: self._device.__dict__["_" + x] ...}` reads the
current settings — raising `AttributeError` when `self._device` is `None` —
then `self.disconnect()` closes the port and
`self._device = serial.Serial(...)` reopens it with no try/except around
it: a constructor failure raises out of `reconnect`. The retry loop then
runs (its guard `self._device is None` can only hold if the constructor
returned `None`, which pyserial constructors never do). If the device is
still `None` the method returns `None`; otherwise it clears
`self._device_error` and returns `True`. The last component counts the
constructor calls made. -/
def reconnect (trials : Nat) (s : SDState) : PyOutcome Bool × SDState × List Ev × Nat :=
  match s.device with
  | none => (.exn "AttributeError", s, [], 0)
  | some _ =>
    let d := disconnect s
    match openPort d.2.1 with
    | (.exn e, s2, e2) => (.exn e, s2, d.2.2 ++ e2, 1)
    | (.ok p, s2, e2) => reconnectFinish trials { s2 with device := some p } (d.2.2 ++ e2)
    | (.retNone, s2, e2) => reconnectFinish trials s2 (d.2.2 ++ e2)

/-- Embedding of `SerialDevice._write` (src/SerialDevice.py lines 202-272)
with `self._encode` the identity of the base class and `verbose = False`;
`sleep` is a pure delay and is not modelled. With a device present:
optional buffer resets, then `try: self._device.write(to_send)`. On a
write exception the handler only sets `self._device_error = True` and
control falls past the try statement to the trailing
`if self._device_error: ... self.reconnect(); return None` — whose
`reconnect` exception would propagate. On a successful write with `check`
false the method returns `None` at once (the trailing error check is not
reached). On a successful write with `check` true the echo is read back —
under `force_timeout` by polling `in_waiting` against the deadline
(modelled by whether `in_waiting` reaches the needed length), otherwise by
a direct `self._device.read(len(to_send))` whose exception propagates (it
sits in the `else` clause of the try statement, not under the `except`) —
the input buffer is optionally reset, and the decoded echo is returned if
it equals what was sent, else `None`. With the device `None`, the first
block is skipped and only the trailing error-flag check runs. -/
def SD_write (instruction : List Nat) (reset check reset_check forceTimeout : Bool)
    (s : SDState) : PyOutcome (List Nat) × SDState × List Ev :=
  match s.device with
  | some port =>
    let ev0 := if reset then [Ev.resetIn, Ev.resetOut] else []
    let to_send := instruction
    if port.writeRaises then
      let s1 := { s with device_error := true }
      match reconnect 3 s1 with
      | (.exn e, s2, e2, _) => (.exn e, s2, ev0 ++ [Ev.portWrite to_send] ++ e2)
      | (_, s2, e2, _) => (.retNone, s2, ev0 ++ [Ev.portWrite to_send] ++ e2)
    else
      if check then
        if forceTimeout then
          if to_send.length ≤ port.inWaiting then
            if port.readRaises then
              (.exn "SerialException", s, ev0 ++ [Ev.portWrite to_send, Ev.portRead to_send.length])
            else
              let ret := port.readData.take to_send.length
              let ev1 := ev0 ++ [Ev.portWrite to_send, Ev.portRead to_send.length] ++
                (if reset_check then [Ev.resetIn] else [])
              if ret = to_send then (.ok ret, s, ev1) else (.retNone, s, ev1)
          else
            let ev1 := ev0 ++ [Ev.portWrite to_send] ++
              (if reset_check then [Ev.resetIn] else [])
            (.retNone, s, ev1)
        else
          if port.readRaises then
            (.exn "SerialException", s, ev0 ++ [Ev.portWrite to_send, Ev.portRead to_send.length])
          else
            let ret := port.readData.take to_send.length
            let ev1 := ev0 ++ [Ev.portWrite to_send, Ev.portRead to_send.length] ++
              (if reset_check then [Ev.resetIn] else [])
            if ret = to_send then (.ok ret, s, ev1) else (.retNone, s, ev1)
      else
        (.retNone, s, ev0 ++ [Ev.portWrite to_send])
  | none =>
    if s.device_error then
      match reconnect 3 s with
      | (.exn e, s2, e2, _) => (.exn e, s2, e2)
      | (_, s2, e2, _) => (.retNone, s2, e2)
    else
      (.retNone, s, [])

/-- Tail of `SerialDevice._read` once `ret` is known: a non-empty `ret` is
decoded (`self._decode` is the identity), the input buffer is optionally
reset, and the data is returned; an empty or `None` `ret` runs `reconnect`
only when `auto_reconnect` and `device_error` are both set, and returns
`None`. -/
def SD_readRet (ret : Option (List Nat)) (reset : Bool) (evs : List Ev)
    (s : SDState) : PyOutcome (List Nat) × SDState × List Ev :=
  let failPath : PyOutcome (List Nat) × SDState × List Ev :=
    if s.auto_reconnect && s.device_error then
      match reconnect 3 s with
      | (.exn e, s2, e2, _) => (.exn e, s2, evs ++ e2)
      | (_, s2, e2, _) => (.retNone, s2, evs ++ e2)
    else (.retNone, s, evs)
  match ret with
  | some r =>
    if 0 < r.length then
      (.ok r, s, evs ++ (if reset then [Ev.resetIn] else []))
    else failPath
  | none => failPath

/-- Embedding of `SerialDevice._read` (src/SerialDevice.py lines 274-340)
with `self._decode` the identity and `verbose = False`; `sleep` is not
modelled. With the device `None` the whole body is skipped and the method
returns `None` with no port access. Under `force_timeout` the port is
polled until `in_waiting >= size` or the deadline passes leaving
`ret = None` (modelled by whether `in_waiting` reaches `size`); otherwise
`ret = self._device.read(size)`, whose exception is caught, sets
`self._device_error = True` and falls past the try statement to an
implicit `return None`. -/
def SD_read (size : Nat) (reset decode forceTimeout : Bool) (s : SDState) :
    PyOutcome (List Nat) × SDState × List Ev :=
  match s.device with
  | none => (.retNone, s, [])
  | some port =>
    if forceTimeout then
      if size ≤ port.inWaiting then
        if port.readRaises then
          (.retNone, { s with device_error := true }, [Ev.portRead size])
        else SD_readRet (some (port.readData.take size)) reset [Ev.portRead size] s
      else SD_readRet none reset [] s
    else
      if port.readRaises then
        (.retNone, { s with device_error := true }, [Ev.portRead size])
      else SD_readRet (some (port.readData.take size)) reset [Ev.portRead size] s

/-- Embedding of `SerialDevice._write_read` (src/SerialDevice.py lines
161-200), the method behind the public `write_read`: `reset` forces both
`reset_out` and `reset_in`; with the device `None` nothing runs and the
method returns `None`. Otherwise `_write(instruction, reset=reset_out,
check=check)` runs first (a propagating exception aborts); a `None` result
from the write aborts before the read ONLY when `check` is set; then, when
a `size` was given, `_read(size, reset=reset_in)` runs and its result is
returned, else the method returns `None`. -/
def SD_write_read (instruction : List Nat) (size : Option Nat)
    (reset reset_out reset_in check : Bool) (s : SDState) :
    PyOutcome (List Nat) × SDState × List Ev :=
  let reset_out := if reset then true else reset_out
  let reset_in := if reset then true else reset_in
  match s.device with
  | none => (.retNone, s, [])
  | some _ =>
    match SD_write instruction reset_out check false false s with
    | (.exn e, s1, e1) => (.exn e, s1, e1)
    | (ret, s1, e1) =>
      if check ∧ ret = .retNone then (.retNone, s1, e1)
      else
        match size with
        | some n =>
          let rd := SD_read n reset_in true false s1
          (rd.1, rd.2.1, e1 ++ rd.2.2)
        | none => (.retNone, s1, e1)

/-- A quiet port: writes succeed, reads succeed and yield no data. -/
def idlePort : PortModel := ⟨false, false, [], false, 0⟩

/-- A port whose write raises an I/O error. -/
def failWritePort : PortModel := ⟨true, false, [], false, 0⟩

/-- A connected device whose port fails on write; the next constructor
call succeeds with a quiet port. -/
def writeFailState : SDState :=
  ⟨some failWritePort, false, false, fun _ => OpenResult.opened idlePort, 0⟩

/-- A connected device whose port constructor raises on every reopen
attempt, as pyserial behaves for an unreachable device. -/
def openFailState : SDState :=
  ⟨some idlePort, false, false, fun _ => OpenResult.raises, 0⟩

/-- A connected, faulted device (error flag set) whose next constructor
call would succeed with a quiet port. -/
def reopenOkState : SDState :=
  ⟨some idlePort, true, false, fun _ => OpenResult.opened idlePort, 0⟩

/-- A connected device whose error flag is set and whose reopen attempts
raise: the state left behind when a write failed and the in-write forced
reconnection raised. -/
def faultedState : SDState :=
  ⟨some idlePort, true, false, fun _ => OpenResult.raises, 0⟩

/-- A device with no handle and a clear error flag: the state after a
normal `disconnect`. -/
def closedState : SDState :=
  ⟨none, false, false, fun _ => OpenResult.raises, 0⟩

/-- Helper: the source transcription of one CRC round agrees with the
spec-worded round. -/
theorem crcRound_eq_spec (c : Nat) : crcRound c = crcRoundSpec c := by
  unfold crcRound crcRoundSpec
  rw [Nat.and_one_is_mod, Nat.shiftRight_one]
  rcases Nat.mod_two_eq_zero_or_one c with h | h <;> simp [h]

/-- Helper: the CRC accumulators of the source and of the spec wording
agree on every input. -/
theorem crcAccum_eq_spec (data : List Nat) : crcAccum data = crcAccumSpec data := by
  have hb : crcByte = fun c b => crcRoundSpec^[8] (c ^^^ b) := by
    funext c b
    simp only [crcByte, funext crcRound_eq_spec]
  unfold crcAccum crcAccumSpec
  rw [hb]

/-- C3: `modbus_crc_16` implements the Modbus CRC-16 algorithm exactly as
the spec words it (seed 0xFFFF, XOR each byte into the low byte, eight
rounds of shift-right with conditional XOR 0xA001 — proved by equality
with the spec-worded accumulator), is deterministic (a pure function,
fully described by the equations below), orders its two output bytes
low-then-high for endian "big" and high-then-low for endian "little", and
on the reference input 01 03 00 13 00 01 with "big" produces the de-facto
Modbus CRC-16/ANSI reference bytes 0x75, 0xCF; appending those two bytes
to the message gives CRC residual 0, the Modbus validity invariant. -/
theorem crc16_conformance :
    (∀ data : List Nat, crcAccum data = crcAccumSpec data) ∧
    (∀ data : List Nat,
      modbus_crc_16 data "big" = some (crcAccum data &&& 0xff, crcAccum data >>> 8)) ∧
    (∀ data : List Nat,
      modbus_crc_16 data "little" = some (crcAccum data >>> 8, crcAccum data &&& 0xff)) ∧
    modbus_crc_16 [0x01, 0x03, 0x00, 0x13, 0x00, 0x01] "big" = some (0x75, 0xCF) ∧
    crcAccum ([0x01, 0x03, 0x00, 0x13, 0x00, 0x01] ++ [0x75, 0xCF]) = 0 :=
  ⟨crcAccum_eq_spec, fun _ => rfl, fun _ => rfl, by decide, by decide⟩

/-- C4: for every device address and catalog instruction template — the
register template of spec section 3 is the function byte 0x03 (which
`trig_hex` hardcodes) followed by the catalog register/count bytes — the
encoded request frame is exactly the address prepended to the template
followed by the CRC-16 of those bytes appended low byte first; the total
frame length is the template length plus 3; encoding is a pure function of
its arguments, hence deterministic. -/
theorem trig_hex_frame (address : Nat) (inst_bytes : List Nat) :
    trig_hex address inst_bytes =
      some ((address :: (0x03 :: inst_bytes)) ++
        [crcAccum (address :: 0x03 :: inst_bytes) &&& 0xff,
         crcAccum (address :: 0x03 :: inst_bytes) >>> 8]) ∧
    ((address :: (0x03 :: inst_bytes)) ++
        [crcAccum (address :: 0x03 :: inst_bytes) &&& 0xff,
         crcAccum (address :: 0x03 :: inst_bytes) >>> 8]).length =
      (0x03 :: inst_bytes).length + 3 := by
  refine ⟨rfl, ?_⟩
  simp [List.length_append]

/-- C9: for every endian string other than "big" and "little",
`modbus_crc_16` falls off the end of the function and returns `None` — not
a byte pair and not an exception. -/
theorem modbus_crc_16_other_endian (data : List Nat) (endian : String)
    (hb : endian ≠ "big") (hl : endian ≠ "little") :
    modbus_crc_16 data endian = none := by
  simp [modbus_crc_16, hb, hl]

/-- Witness for C9 at the concrete endian string "middle". -/
theorem modbus_crc_16_other_endian_witness :
    ("middle" : String) ≠ "big" ∧ ("middle" : String) ≠ "little" ∧
      modbus_crc_16 [0x01, 0x03] "middle" = none :=
  ⟨by decide, by decide,
   modbus_crc_16_other_endian [0x01, 0x03] "middle" (by decide) (by decide)⟩

/-- Helper: stripping the final four hex characters from a frame recovers
exactly the part before a 4-character tail. -/
theorem strip_crc_append (r c : List Nat) (hc : c.length = 4) :
    (r ++ c).take ((r ++ c).length - 4) = r := by
  have h1 : (r ++ c).length - 4 = r.length := by
    simp [List.length_append, hc]
  rw [h1]
  exact List.take_left r c

/-- C1 amended: `read_value` strips the trailing two CRC bytes without any
verification — its result is identical for any two four-hex-character
tails, so a frame whose trailing CRC bytes do not equal the Modbus CRC-16
of the preceding bytes decodes exactly as the correctly-checksummed frame
does, and no checksum failure is ever reported. -/
theorem read_value_ignores_crc (catalog : Catalog) (r c c2 : List Nat)
    (key : String) (hc : c.length = 4) (hc2 : c2.length = 4) :
    read_value catalog (r ++ c) key = read_value catalog (r ++ c2) key := by
  unfold read_value
  rw [strip_crc_append r c hc, strip_crc_append r c2 hc2]

/-- Witness for the C1 theorem: the concrete moisture frame 01 03 02 00 64
decodes identically under its true CRC tail B9 AF and under the wrong
tail 00 00. -/
theorem read_value_ignores_crc_witness :
    ([0xB, 0x9, 0xA, 0xF] : List Nat).length = 4 ∧
    ([0x0, 0x0, 0x0, 0x0] : List Nat).length = 4 ∧
    read_value testCatalog
        (bytesToHex [0x01, 0x03, 0x02, 0x00, 0x64] ++ [0xB, 0x9, 0xA, 0xF]) "2" =
      read_value testCatalog
        (bytesToHex [0x01, 0x03, 0x02, 0x00, 0x64] ++ [0x0, 0x0, 0x0, 0x0]) "2" :=
  ⟨by decide, by decide,
   read_value_ignores_crc testCatalog (bytesToHex [0x01, 0x03, 0x02, 0x00, 0x64])
     [0xB, 0x9, 0xA, 0xF] [0x0, 0x0, 0x0, 0x0] "2" (by decide) (by decide)⟩

/-- C1 counterexample: the response frame 01 03 02 00 65 B9 AF carries the
CRC bytes of the untampered frame 01 03 02 00 64 (one payload bit
flipped), so its trailing CRC bytes do not equal the Modbus CRC-16 of the
preceding bytes; yet `read_value` returns a Reading (Moisture 10.1) and no
checksum failure. -/
theorem read_value_crc_mismatch_reading :
    modbus_crc_16 [0x01, 0x03, 0x02, 0x00, 0x64] "big" = some (0xB9, 0xAF) ∧
    modbus_crc_16 [0x01, 0x03, 0x02, 0x00, 0x65] "big" ≠ some (0xB9, 0xAF) ∧
    read_value testCatalog (bytesToHex [0x01, 0x03, 0x02, 0x00, 0x65, 0xB9, 0xAF]) "2" =
      PyOutcome.ok [("Moisture", (101 : ℚ) / 10)] :=
  ⟨by decide, by decide,
   by simp [read_value, read_value_core, testCatalog, int_dec, hex_to_signed, pyDiv,
            bindO, bytesToHex, byteToHex, hexVal, chunks4]⟩

/-- C6 counterexample: for instruction key "1" with payload hex 0A8C00FA
and convert_rate 10, the decoder yields Temperature 270.0 — 0x0A8C is
2700, and 2700 / 10 = 270 — not the 277.2 the claim states (Humidity is
25.0 as claimed). -/
theorem read_value_tempHum_not_2772 :
    read_value testCatalog
        (bytesToHex [0x01, 0x03, 0x04, 0x0A, 0x8C, 0x00, 0xFA, 0x00, 0x00]) "1" =
      PyOutcome.ok [("Temperature", 270), ("Humidity", 25)] ∧
    (270 : ℚ) ≠ 2772 / 10 := by
  constructor
  · simp [read_value, read_value_core, testCatalog, int_dec, hex_to_signed, pyDiv,
          bindO, bytesToHex, byteToHex, hexVal, chunks4]
    norm_num
  · norm_num

/-- C6 amended: decoding a response for instruction key "1" whose payload
bytes are hex 0A8C00FA with convert_rate 10 yields Temperature 270.0 and
Humidity 25.0 by the two-field split, two of-complement interpretation and
scaling. -/
theorem read_value_tempHum_scenario :
    read_value testCatalog
        (bytesToHex [0xAA, 0x03, 0x04, 0x0A, 0x8C, 0x00, 0xFA, 0x00, 0x00]) "1" =
      PyOutcome.ok [("Temperature", 270), ("Humidity", 25)] := by
  simp [read_value, read_value_core, testCatalog, int_dec, hex_to_signed, pyDiv,
        bindO, bytesToHex, byteToHex, hexVal, chunks4]
  norm_num

/-- C2: at the failing input of the code bug — a structurally valid
single-field response for the catalog key "8" (raw field 0x0064,
convert_rate 10) — the decoder raises `UnboundLocalError`, because the
branch for key "8" returns the dict value `n`, a variable never assigned
on that path, where the claim (and the surrounding branches for keys "6"
and "7", which do work) expects the Potassium reading 10.0. -/
theorem read_value_key8_unbound :
    testCatalog "8" = some ⟨[0x00, 0x20, 0x00, 0x01], 10, "potassium"⟩ ∧
    read_value testCatalog (bytesToHex [0x01, 0x03, 0x02, 0x00, 0x64, 0xB9, 0xAF]) "8" =
      PyOutcome.exn "UnboundLocalError" ∧
    read_value testCatalog (bytesToHex [0x01, 0x03, 0x02, 0x00, 0x64, 0xB9, 0xAF]) "6" =
      PyOutcome.ok [("Nitrogen", 10)] ∧
    read_value testCatalog (bytesToHex [0x01, 0x03, 0x02, 0x00, 0x64, 0xB9, 0xAF]) "7" =
      PyOutcome.ok [("Phosphorus", 10)] :=
  ⟨by decide, by decide,
   by simp [read_value, read_value_core, testCatalog, int_dec, hex_to_signed, pyDiv,
            bindO, bytesToHex, byteToHex, hexVal, chunks4]
      norm_num,
   by simp [read_value, read_value_core, testCatalog, int_dec, hex_to_signed, pyDiv,
            bindO, bytesToHex, byteToHex, hexVal, chunks4]
      norm_num⟩

/-- Helper: decimal `int` on a two-character string of decimal digits
reads the value d1*10 + d2. -/
theorem int_dec_pair (d1 d2 : Nat) (h1 : d1 < 10) (h2 : d2 < 10) :
    int_dec [d1, d2] = PyOutcome.ok (10 * d1 + d2) := by
  unfold int_dec
  rw [if_neg]
  · simp only [List.foldl_cons, List.foldl_nil, PyOutcome.ok.injEq]
    ring
  · intro hcond
    rcases hcond with h | h
    · simp at h
    · simp at h
      omega

/-- Helper: decimal `int` on a two-character string with a hex letter (a
digit of value 10 or more) raises `ValueError`. -/
theorem int_dec_pair_letter (d1 d2 : Nat) (h : 10 ≤ d1 ∨ 10 ≤ d2) :
    int_dec [d1, d2] = PyOutcome.exn "ValueError" := by
  unfold int_dec
  rw [if_pos]
  right
  rcases h with h | h <;> simp [h]

/-- C7 amended: `get_dev_id` extracts byte 0 (the first two hex
characters); `read_value` obtains byte_count by parsing the two hex
characters of byte 2 as a DECIMAL number — a pair of decimal digits d1 d2
is read as 10*d1 + d2 (which equals the byte value only for bytes 0x00 to
0x09), and when either character is a hex letter the code raises an
untyped `ValueError`; when the parse succeeds and the key is not in the
catalog the code raises an untyped `KeyError` (there is no typed
`UnknownInstructionKey`); no comparison of the declared byte_count against
the actual remaining payload length is made — the payload slice clamps
silently (there is no `MalformedFrame`). -/
theorem read_value_frame_fields (b : Nat) (bs : List Nat) (catalog : Catalog)
    (r : List Nat) (key : String) (d1 d2 : Nat)
    (heff : ((r.take (r.length - 4)).drop 4).take 2 = [d1, d2]) :
    get_dev_id (byteToHex b ++ bs) = byteToHex b ∧
    (10 ≤ d1 ∨ 10 ≤ d2 → read_value catalog r key = PyOutcome.exn "ValueError") ∧
    (d1 < 10 → d2 < 10 → catalog key = none →
      read_value catalog r key = PyOutcome.exn "KeyError") ∧
    (d1 < 10 → d2 < 10 → int_dec [d1, d2] = PyOutcome.ok (10 * d1 + d2)) := by
  refine ⟨?_, ?_, ?_, fun h1 h2 => int_dec_pair d1 d2 h1 h2⟩
  · simp [get_dev_id, byteToHex]
  · intro h
    unfold read_value read_value_core
    simp only [heff]
    rw [int_dec_pair_letter d1 d2 h]
    rfl
  · intro h1 h2 hcat
    unfold read_value read_value_core
    simp only [heff]
    rw [int_dec_pair d1 d2 h1 h2]
    simp [bindO, hcat]

/-- Witness for the C7 theorem: byte 2 of value 0x1F (hex characters 1
and f) makes `read_value` raise `ValueError` for the known key "2", and a
well-formed frame with the unknown key "9" raises `KeyError`. -/
theorem read_value_frame_fields_witness :
    read_value testCatalog (bytesToHex [0x01, 0x03, 0x1F, 0x00, 0x64, 0x00, 0x00]) "2" =
      PyOutcome.exn "ValueError" ∧
    read_value testCatalog (bytesToHex [0x01, 0x03, 0x02, 0x00, 0x64, 0x00, 0x00]) "9" =
      PyOutcome.exn "KeyError" :=
  ⟨(read_value_frame_fields 0x01 [] testCatalog
      (bytesToHex [0x01, 0x03, 0x1F, 0x00, 0x64, 0x00, 0x00]) "2" 1 15
      (by decide)).2.1 (by decide),
   (read_value_frame_fields 0x01 [] testCatalog
      (bytesToHex [0x01, 0x03, 0x02, 0x00, 0x64, 0x00, 0x00]) "9" 0 2
      (by decide)).2.2.1 (by decide) (by decide) (by decide)⟩

/-- C7 counterexample: the response 01 03 0A ... declares byte_count 0x0A
with a full ten-byte payload present, and the key "2" is in the catalog —
the claim therefore requires byte_count 10 to be extracted and a value
returned — yet the code raises an untyped `ValueError`, because the hex
characters "0a" of byte 2 are handed to decimal `int`. -/
theorem read_value_bytecount_hexletter :
    testCatalog "2" = some ⟨[0x00, 0x12, 0x00, 0x01], 10, "soil moisture"⟩ ∧
    read_value testCatalog
        (bytesToHex [0x01, 0x03, 0x0A, 0x00, 0x64, 0x00, 0x64, 0x00, 0x64,
                     0x00, 0x64, 0x00, 0x64, 0x00, 0x00]) "2" =
      PyOutcome.exn "ValueError" :=
  ⟨by decide, by decide⟩

/-- C5: evaluated at the failing input — a connected device whose port
constructor raises on every reopen attempt, as pyserial does for an
unreachable device — `reconnect(trials=3)` propagates `SerialException`
after exactly ONE constructor call: the documented `None` (Exhausted)
value is never produced and the retry loop never runs, because
`self._device = serial.Serial(...)` is not wrapped in try/except and the
constructor never returns `None`. On a successful reopen, by contrast, the
error flag is cleared and `True` is returned, as the claim says. -/
theorem reconnect_openfail_raises :
    (reconnect 3 openFailState).1 = PyOutcome.exn "SerialException" ∧
    (reconnect 3 openFailState).2.2.2 = 1 ∧
    (reconnect 3 reopenOkState).1 = PyOutcome.ok true ∧
    (reconnect 3 reopenOkState).2.1.device_error = false :=
  ⟨rfl, rfl, rfl, rfl⟩

/-- Helper: whatever the port yields, the tail of `_read` keeps the events
recorded so far as a prefix of its event output. -/
theorem SD_readRet_keeps_events (ret : Option (List Nat)) (rs : Bool)
    (evs : List Ev) (s : SDState) :
    ∃ tail, (SD_readRet ret rs evs s).2.2 = evs ++ tail := by
  unfold SD_readRet
  rcases ret with _ | r
  · dsimp only
    by_cases hb : s.auto_reconnect && s.device_error
    · rcases hrec : reconnect 3 s with ⟨o, s2, e2, k⟩
      cases o <;> simp [hb, hrec]
    · exact ⟨[], by simp [hb]⟩
  · dsimp only
    by_cases hl : 0 < r.length
    · exact ⟨if rs then [Ev.resetIn] else [], by simp [hl]⟩
    · by_cases hb : s.auto_reconnect && s.device_error
      · rcases hrec : reconnect 3 s with ⟨o, s2, e2, k⟩
        cases o <;> simp [hl, hb, hrec]
      · exact ⟨[], by simp [hl, hb]⟩

/-- Helper: `_read` on a present device always touches the port — the
event trace of the call contains the port read of the requested size. -/
theorem SD_read_attempts (n : Nat) (rs dec : Bool) (s : SDState)
    (port : PortModel) (hdev : s.device = some port) :
    Ev.portRead n ∈ (SD_read n rs dec false s).2.2 := by
  unfold SD_read
  rw [hdev]
  dsimp only
  by_cases hr : port.readRaises
  · simp [hr]
  · rcases SD_readRet_keeps_events (some (port.readData.take n)) rs [Ev.portRead n] s with ⟨tail, ht⟩
    simp [hr, ht]

/-- Helper: a `_write` whose port write raises (with any `check` flag and
default `force_timeout`), when the forced in-write reconnection opens a
fresh port, returns `None` with the device replaced, the error flag
cleared, and an event trace of the resets, the failed write, the close and
the reopen — no port read. -/
theorem SD_write_fail_parts (ins : List Nat) (rs check rc : Bool) (s : SDState)
    (port port2 : PortModel) (hdev : s.device = some port)
    (hw : port.writeRaises = true)
    (hopen : s.openSeq s.openIdx = OpenResult.opened port2) :
    SD_write ins rs check rc false s =
      (PyOutcome.retNone,
       ⟨some port2, false, s.auto_reconnect, s.openSeq, s.openIdx + 1⟩,
       (if rs then [Ev.resetIn, Ev.resetOut] else []) ++
         [Ev.portWrite ins, Ev.portClose, Ev.portOpen]) := by
  unfold SD_write reconnect reconnectFinish reconnectLoop disconnect openPort
  rw [hdev]
  simp [hw, hopen]

/-- C8 amended: `_write_read` with a read size composes write then read
but does NOT short-circuit under the default `check = False`: when the
device write raises (and the in-write forced reconnection reopens a
port), the subsequent read is still attempted — the event trace contains
the port read of the requested size. Only with `check = True` does the
`None` produced by the failed write return before the read: the result is
`None` and no port read of any size is attempted. -/
theorem write_read_write_fail (ins : List Nat) (n : Nat) (s : SDState)
    (port port2 : PortModel) (hdev : s.device = some port)
    (hw : port.writeRaises = true)
    (hopen : s.openSeq s.openIdx = OpenResult.opened port2) :
    Ev.portRead n ∈ (SD_write_read ins (some n) true true true false s).2.2 ∧
    (SD_write_read ins (some n) true true true true s).1 = PyOutcome.retNone ∧
    (∀ m, Ev.portRead m ∉ (SD_write_read ins (some n) true true true true s).2.2) := by
  have hsw := SD_write_fail_parts ins true false false s port port2 hdev hw hopen
  have hswT := SD_write_fail_parts ins true true false s port port2 hdev hw hopen
  refine ⟨?_, ?_, ?_⟩
  · simp only [SD_write_read, hdev, reduceIte]
    rw [hsw]
    dsimp only
    simp only [reduceIte]
    exact List.mem_append.mpr (Or.inr (SD_read_attempts n true true _ port2 rfl))
  · simp only [SD_write_read, hdev, reduceIte]
    rw [hswT]
    dsimp only
    simp [reduceIte]
  · intro m
    simp only [SD_write_read, hdev, reduceIte]
    rw [hswT]
    dsimp only
    simp [reduceIte]

/-- Witness for the C8 theorem at the concrete write-failing device. -/
theorem write_read_write_fail_witness :
    Ev.portRead 13 ∈ (SD_write_read [0x01] (some 13) true true true false writeFailState).2.2 ∧
    (SD_write_read [0x01] (some 13) true true true true writeFailState).1 = PyOutcome.retNone :=
  ⟨(write_read_write_fail [0x01] 13 writeFailState failWritePort idlePort rfl rfl rfl).1,
   (write_read_write_fail [0x01] 13 writeFailState failWritePort idlePort rfl rfl rfl).2.1⟩

/-- C8 counterexample: with the default `check = False`, after the port
write raises an I/O error, `_write_read` with the protocol's 13-byte read
size still attempts the read — the event trace of the concrete call
contains the port read — and returns `None` from the read path, not a
short-circuit of the write failure. -/
theorem write_read_after_failed_write :
    (SD_write_read [0x01, 0x03] (some 13) true true true false writeFailState).1 =
      PyOutcome.retNone ∧
    Ev.portRead 13 ∈ (SD_write_read [0x01, 0x03] (some 13) true true true false writeFailState).2.2 :=
  ⟨rfl, by decide⟩

/-- C10 amended: after `disconnect` returns, the internal device handle is
`None` regardless of how the underlying close behaved (the `finally`
clause always clears it, and a close-time exception is caught); from a
`None`-handle state, `_read` and `_write_read` return `None` without any
port access, and `_write` does so as well provided the error flag is
clear — with the error flag still set, `_write` instead runs the trailing
forced reconnection, which raises `AttributeError` because there is no
device left to read the port settings from. -/
theorem disconnect_then_io (s t : SDState) (ins : List Nat) (n : Nat)
    (size : Option Nat) (rs dec check : Bool) (hdev : t.device = none) :
    ((disconnect s).2.1).device = none ∧
    SD_read n rs dec false t = (PyOutcome.retNone, t, []) ∧
    SD_write_read ins size rs rs rs check t = (PyOutcome.retNone, t, []) ∧
    (t.device_error = false →
      SD_write ins rs check false false t = (PyOutcome.retNone, t, [])) ∧
    (t.device_error = true →
      (SD_write ins rs check false false t).1 = PyOutcome.exn "AttributeError") := by
  refine ⟨?_, ?_, ?_, ?_, ?_⟩
  · unfold disconnect
    rcases s.device <;> rfl
  · unfold SD_read
    rw [hdev]
  · unfold SD_write_read
    rw [hdev]
  · intro he
    unfold SD_write
    rw [hdev, he]
    rfl
  · intro he
    unfold SD_write reconnect
    rw [hdev, he]
    rfl

/-- Witness for the C10 theorem at the concrete closed, non-faulted
state. -/
theorem disconnect_then_io_witness :
    SD_read 13 true true false closedState = (PyOutcome.retNone, closedState, []) ∧
    SD_write [0x01] true false false false closedState = (PyOutcome.retNone, closedState, []) :=
  ⟨(disconnect_then_io closedState closedState [0x01] 13 (some 13) true true false rfl).2.1,
   (disconnect_then_io closedState closedState [0x01] 13 (some 13) true true false rfl).2.2.2.1 rfl⟩

/-- C10 counterexample: starting from a faulted, connected device whose
reopen attempts raise (the state a failed write followed by a failed
in-write reconnection leaves behind), `disconnect` clears the handle, but
the next `_write` call does not return `None`: the error flag is still
set, so `_write` runs the trailing forced reconnection on a `None` device
and raises `AttributeError`. -/
theorem write_after_disconnect_raises :
    ((disconnect faultedState).2.1).device = none ∧
    ((disconnect faultedState).2.1).device_error = true ∧
    (SD_write [0x01] true false false false (disconnect faultedState).2.1).1 =
      PyOutcome.exn "AttributeError" :=
  ⟨rfl, rfl, rfl⟩
